import Mathlib

/-
Verification of the service-health-checker repository.

Shallow embedding of src/lib/healthChecks.ts and the /api/health route
handlers (GET and POST). External dependencies (the postgres client, the
S3/SES clients, the raw socket) are modelled by a World record that fixes
the outcome of each network interaction; the ambient process environment
is modelled by a Config record of optional strings. JavaScript falsiness
of strings (undefined or empty string) is modelled by presentS; the
pattern a || b on strings is modelled by orS.
-/

set_option maxHeartbeats 1000000

namespace HealthChecker

/-- Status of one health check: the source union type of the two string
literals success and error. -/
inductive CheckStatus where
  | success
  | error
deriving DecidableEq

/-- A value stored in the open-ended details mapping of a result. The
source stores strings, booleans, numbers, and possibly NaN (from a
parseInt that fails). -/
inductive DValue where
  | s (v : String)
  | b (v : Bool)
  | n (v : Nat)
  | nan
deriving DecidableEq

/-- The HealthCheckResult interface of src/lib/healthChecks.ts. -/
structure HealthCheckResult where
  service : String
  status : CheckStatus
  message : String
  details : Option (List (String × DValue))
deriving DecidableEq

/-- The ambient process environment variables read by the probes.
none models an unset variable. -/
structure Config where
  DB_HOST : Option String := none
  DB_PORT : Option String := none
  DB_NAME : Option String := none
  DB_USERNAME : Option String := none
  DB_PASSWORD : Option String := none
  S3_BUCKET_NAME : Option String := none
  AWS_REGION : Option String := none
  SES_FROM_EMAIL : Option String := none
  DNS_CHECK_HOST : Option String := none
  DNS_CHECK_PORT : Option String := none
  PORT : Option String := none
  ENV : Option String := none

/-- JavaScript truthiness of an optional string: unset and the empty
string are falsy. -/
def presentS : Option String → Bool
  | none => false
  | some s => s != ""

/-- JavaScript truthiness of an optional number parameter: unset and 0
are falsy. -/
def presentN : Option Nat → Bool
  | none => false
  | some k => k != 0

/-- The JavaScript pattern a || b for an optional string a with a string
fallback b. -/
def orS (a : Option String) (b : String) : String :=
  match a with
  | none => b
  | some s => if s = "" then b else s

/-- A thrown JavaScript value as the catch blocks render it:
some m models an Error instance with message m, none models a non-Error
value (rendered as the literal Unknown error). -/
abbrev JsError := Option String

/-- The rendering e instanceof Error ? e.message : the Unknown error
literal, used by every catch block and by the orchestrator. -/
def errMsg : JsError → String
  | some m => m
  | none => "Unknown error"

/-- The digit prefix of a character list. -/
def digitsPrefix : List Char → List Char
  | [] => []
  | c :: rest => if c.isDigit then c :: digitsPrefix rest else []

/-- Accumulate a digit list into a natural number. -/
def digitsToNat : List Char → Nat → Nat
  | [], acc => acc
  | c :: rest, acc => digitsToNat rest (acc * 10 + (c.toNat - '0'.toNat))

/-- Model of parseInt on a decimal string: the number read from the
leading digit run, or none (NaN) when the string does not start with a
digit. -/
def parseIntNat (s : String) : Option Nat :=
  match digitsPrefix s.data with
  | [] => none
  | ds => some (digitsToNat ds 0)

/-- One observable event on the raw-reachability socket: the 5000 ms
timer firing, the connect event, or an error event carrying the optional
error code and the error message. -/
inductive DNSEvent where
  | timeoutFire
  | connectEvt
  | errorEvt (code : Option String) (msg : String)
deriving DecidableEq

/-- Fixed outcomes of every external interaction during one batch run.
The four fault channels model a probe promise that rejects with an
uncaught fault (the channel Promise.allSettled observes as rejected);
none means the promise fulfills normally. -/
structure World where
  dbConnect : Except JsError Unit := .ok ()
  dbQuery : Except JsError String := .ok "2024-01-01T00:00:00Z"
  s3Head : Except JsError Unit := .ok ()
  sesVerify : Except JsError (Option String) := .ok (some "Success")
  dnsEvent : DNSEvent := .connectEvt
  dbFault : Option JsError := none
  s3Fault : Option JsError := none
  sesFault : Option JsError := none
  dnsFault : Option JsError := none

/-! ## Probe: local self-report (checkPort) -/

/-- checkPort from src/lib/healthChecks.ts: always succeeds, reporting
the configured listen port and environment label. -/
def checkPort (cfg : Config) : HealthCheckResult :=
  let port := orS cfg.PORT "3000"
  { service := "Application Port"
    status := .success
    message := "Application is running on port " ++ port
    details := some [("running", .b true), ("environment", .s (orS cfg.ENV "development"))] }

/-! ## Probe: database connectivity (checkDatabase) -/

/-- The precondition gate of checkDatabase: all four of DB_HOST, DB_NAME,
DB_USERNAME, DB_PASSWORD must be truthy (DB_PORT is not checked). -/
def dbEligible (cfg : Config) : Bool :=
  presentS cfg.DB_HOST && presentS cfg.DB_NAME &&
  presentS cfg.DB_USERNAME && presentS cfg.DB_PASSWORD

/-- The port the Client is constructed with:
parseInt(process.env.DB_PORT or the literal 5432). -/
def dbPortUsed (cfg : Config) : Option Nat :=
  parseIntNat (orS cfg.DB_PORT "5432")

/-- Resource bookkeeping for one checkDatabase run: whether client.connect
succeeded (a connection was opened) and whether client.end was reached
(the connection was closed) before the probe returned. -/
structure DBTrace where
  connected : Bool
  ended : Bool
  port : Option Nat
deriving DecidableEq

/-- The success result of checkDatabase. -/
def dbSuccessResult (t : String) : HealthCheckResult :=
  { service := "PostgreSQL Database"
    status := .success
    message := "Successfully connected to database"
    details := some [("connected", .b true), ("responseTime", .s "Fast"), ("currentTime", .s t)] }

/-- The catch-block result of checkDatabase. -/
def dbErrorResult (e : JsError) : HealthCheckResult :=
  { service := "PostgreSQL Database"
    status := .error
    message := "Database connection failed: " ++ errMsg e
    details := some [("connected", .b false), ("issue", .s "Connection refused or authentication failed")] }

/-- The body of checkDatabase past the gate: connect, query, end inside
try, with the catch producing dbErrorResult. The trace records that
client.end is reached only when both connect and query succeed: the
catch block returns without ending the client. -/
def dbRunTrace (cfg : Config) (w : World) : HealthCheckResult × DBTrace :=
  match w.dbConnect with
  | .error e => (dbErrorResult e, ⟨false, false, dbPortUsed cfg⟩)
  | .ok _ =>
    match w.dbQuery with
    | .error e => (dbErrorResult e, ⟨true, false, dbPortUsed cfg⟩)
    | .ok t => (dbSuccessResult t, ⟨true, true, dbPortUsed cfg⟩)

/-- checkDatabase from src/lib/healthChecks.ts: null (here none) when a
required variable is absent, otherwise the result of the run. -/
def checkDatabase (cfg : Config) (w : World) : Option HealthCheckResult :=
  if dbEligible cfg then some (dbRunTrace cfg w).1 else none

/-! ## Probe: object-store accessibility (checkS3) -/

/-- The precondition gate of checkS3: S3_BUCKET_NAME must be truthy. -/
def s3Eligible (cfg : Config) : Bool :=
  presentS cfg.S3_BUCKET_NAME

/-- The body of checkS3 past the gate: a HeadBucket call whose outcome is
fixed by the world. The inner bucketName recheck in the source is dead
code (the gate already guarantees presence) and is not modelled. -/
def s3Run (w : World) : HealthCheckResult :=
  match w.s3Head with
  | .ok _ =>
    { service := "AWS S3"
      status := .success
      message := "Successfully accessed S3 bucket"
      details := some [("accessible", .b true), ("permissions", .s "Valid")] }
  | .error e =>
    { service := "AWS S3"
      status := .error
      message := "S3 access failed: " ++ errMsg e
      details := some [("accessible", .b false), ("issue", .s "Access denied or bucket not found")] }

/-- checkS3 from src/lib/healthChecks.ts. -/
def checkS3 (cfg : Config) (w : World) : Option HealthCheckResult :=
  if s3Eligible cfg then some (s3Run w) else none

/-! ## Probe: email-identity verification (checkSES) -/

/-- The precondition gate of checkSES: SES_FROM_EMAIL must be truthy. -/
def sesEligible (cfg : Config) : Bool :=
  presentS cfg.SES_FROM_EMAIL

/-- The body of checkSES past the gate: the verification query returns an
optional VerificationStatus string; emailVerified is whether it equals
the Success literal. -/
def sesRun (w : World) : HealthCheckResult :=
  match w.sesVerify with
  | .ok v =>
    { service := "AWS SES"
      status := .success
      message := "Successfully connected to SES"
      details := some [("accessible", .b true), ("emailVerified", .b (v == some "Success"))] }
  | .error e =>
    { service := "AWS SES"
      status := .error
      message := "SES access failed: " ++ errMsg e
      details := some [("accessible", .b false), ("issue", .s "Access denied or email not verified")] }

/-- checkSES from src/lib/healthChecks.ts. -/
def checkSES (cfg : Config) (w : World) : Option HealthCheckResult :=
  if sesEligible cfg then some (sesRun w) else none

/-! ## Probe: raw reachability (checkDNSPort) -/

/-- The skip test of checkDNSPort: skip only when the call-time hostname
and port and both ambient variables are all falsy. -/
def dnsEligible (hostname : Option String) (port : Option Nat) (cfg : Config) : Bool :=
  presentS hostname || presentN port ||
  presentS cfg.DNS_CHECK_HOST || presentS cfg.DNS_CHECK_PORT

/-- testHost: hostname || process.env.DNS_CHECK_HOST || the google.com
literal. -/
def dnsHostUsed (hostname : Option String) (cfg : Config) : String :=
  orS hostname (orS cfg.DNS_CHECK_HOST "google.com")

/-- testPort: port || parseInt(process.env.DNS_CHECK_PORT || the literal
80); none models NaN from a non-numeric variable. -/
def dnsPortUsed (port : Option Nat) (cfg : Config) : Option Nat :=
  if presentN port then port else parseIntNat (orS cfg.DNS_CHECK_PORT "80")

/-- String interpolation of the test port (NaN renders as NaN). -/
def portRender : Option Nat → String
  | some k => toString k
  | none => "NaN"

/-- Detail value of the port key (a number, or NaN). -/
def portD : Option Nat → DValue
  | some k => .n k
  | none => .nan

/-- The single ProbeResult each of the three resolution paths of
checkDNSPort produces: timeout, connect, or socket error. -/
def dnsResultOf (host : String) (p : Option Nat) : DNSEvent → HealthCheckResult
  | .timeoutFire =>
    { service := "DNS/Port Connectivity"
      status := .error
      message := "Connection timeout to " ++ host ++ ":" ++ portRender p
      details := some [("hostname", .s host), ("port", portD p),
                       ("timeout", .s "5000ms"), ("accessible", .b false)] }
  | .connectEvt =>
    { service := "DNS/Port Connectivity"
      status := .success
      message := "Successfully connected to " ++ host ++ ":" ++ portRender p
      details := some [("hostname", .s host), ("port", portD p),
                       ("accessible", .b true), ("responseTime", .s "Fast")] }
  | .errorEvt code m =>
    { service := "DNS/Port Connectivity"
      status := .error
      message := "Failed to connect to " ++ host ++ ":" ++ portRender p ++ ": " ++ m
      details := some [("hostname", .s host), ("port", portD p),
                       ("accessible", .b false), ("error", .s (orS code "Unknown error"))] }

/-- checkDNSPort from src/lib/healthChecks.ts: none when skipped,
otherwise the result of whichever socket event resolves first. -/
def checkDNSPort (hostname : Option String) (port : Option Nat)
    (cfg : Config) (w : World) : Option HealthCheckResult :=
  if dnsEligible hostname port cfg then
    some (dnsResultOf (dnsHostUsed hostname cfg) (dnsPortUsed port cfg) w.dnsEvent)
  else none

/-! ## Event-level model of the checkDNSPort resolution race

The promise executor installs a timer callback and two socket handlers.
timerActive models the timer being pending (cleared by clearTimeout in
the connect and error handlers, and consumed when it fires); socketAlive
models the socket not yet destroyed (every path calls socket.destroy,
and a destroyed socket emits no further connect or error events).
resolved accumulates every call to resolve. -/

structure DNSState where
  resolved : List HealthCheckResult
  timerActive : Bool
  socketAlive : Bool
deriving DecidableEq

/-- State before any event: timer pending, socket live, nothing
resolved. -/
def dnsInit : DNSState := ⟨[], true, true⟩

/-- Effect of one socket or timer event, as the three handlers in the
source implement it. -/
def dnsStep (host : String) (p : Option Nat) (s : DNSState) : DNSEvent → DNSState
  | .timeoutFire =>
    if s.timerActive then
      ⟨s.resolved ++ [dnsResultOf host p .timeoutFire], false, false⟩
    else s
  | .connectEvt =>
    if s.socketAlive then
      ⟨s.resolved ++ [dnsResultOf host p .connectEvt], false, false⟩
    else s
  | .errorEvt code m =>
    if s.socketAlive then
      ⟨s.resolved ++ [dnsResultOf host p (.errorEvt code m)], false, false⟩
    else s

/-- Run the handler machine over a sequence of events. -/
def dnsRun (host : String) (p : Option Nat) (events : List DNSEvent) : DNSState :=
  events.foldl (dnsStep host p) dnsInit

/-! ## Orchestrator (runAllHealthChecks) -/

/-- One entry of the Promise.allSettled result array: a fulfilled promise
carrying the probe value (null for a skipped probe) or a rejected promise
carrying the thrown reason. -/
inductive SettledResult where
  | fulfilled (value : Option HealthCheckResult)
  | rejected (reason : JsError)
deriving DecidableEq

/-- How one probe promise settles: a skipped probe fulfills with null; a
non-skipped probe either rejects with its injected uncaught fault or
fulfills with its result. -/
def settleProbe (r : Option HealthCheckResult) (fault : Option JsError) : SettledResult :=
  match r, fault with
  | none, _ => .fulfilled none
  | some v, none => .fulfilled (some v)
  | some _, some f => .rejected f

/-- The fixed services array of runAllHealthChecks. -/
def services : List String :=
  ["Application Port", "PostgreSQL Database", "AWS S3", "AWS SES", "DNS/Port Connectivity"]

/-- The Error result runAllHealthChecks pushes for a rejected probe at
index i: the declared service name, a generic message, and no details
field. -/
def orchError (i : Nat) (reason : JsError) : HealthCheckResult :=
  { service := services.getD i ""
    status := .error
    message := "Health check failed: " ++ errMsg reason
    details := none }

/-- The forEach loop of runAllHealthChecks: walk the settled array in
declaration order carrying the index, push fulfilled non-null values,
skip fulfilled nulls, and push orchError for rejections. -/
def processSettled : List SettledResult → Nat → List HealthCheckResult
  | [], _ => []
  | .fulfilled none :: rest, i => processSettled rest (i + 1)
  | .fulfilled (some v) :: rest, i => v :: processSettled rest (i + 1)
  | .rejected reason :: rest, i => orchError i reason :: processSettled rest (i + 1)

/-- The five promises handed to Promise.allSettled, in declaration
order. The first is Promise.resolve(checkPort()) and can never reject. -/
def tasksOf (cfg : Config) (w : World) : List SettledResult :=
  [ .fulfilled (some (checkPort cfg)),
    settleProbe (checkDatabase cfg w) w.dbFault,
    settleProbe (checkS3 cfg w) w.s3Fault,
    settleProbe (checkSES cfg w) w.sesFault,
    settleProbe (checkDNSPort none none cfg w) w.dnsFault ]

/-- runAllHealthChecks from src/lib/healthChecks.ts. -/
def runAllHealthChecks (cfg : Config) (w : World) : List HealthCheckResult :=
  processSettled (tasksOf cfg w) 0

/-! ## Completion-order model of Promise.allSettled

allSettled writes each settled outcome into the results array at the
index of its promise, in completion order; gather models that write
sequence over an arbitrary completion order, and runAllSched runs the
batch under that order. -/

/-- Write the settled outcomes into an all-none results array following
the given completion order of indices. -/
def gather (tasks : List SettledResult) :
    List Nat → List (Option SettledResult) → List (Option SettledResult)
  | [], acc => acc
  | i :: rest, acc => gather tasks rest (acc.set i (some (tasks.getD i (.fulfilled none))))

/-- The batch processed under an explicit completion order: fill the
results array in completion order, then process it in declaration
order. -/
def runAllSched (cfg : Config) (w : World) (order : List Nat) : List HealthCheckResult :=
  processSettled
    (((gather (tasksOf cfg w) order
        (List.replicate (tasksOf cfg w).length none)).map
      (fun o => o.getD (.fulfilled none)))) 0

/-! ## Transport boundary: GET and POST /api/health -/

/-- The summary object computed in the GET handler. -/
structure Summary where
  total : Nat
  passed : Nat
  failed : Nat
deriving DecidableEq

/-- summary as the GET handler derives it from the checks list. -/
def mkSummary (checks : List HealthCheckResult) : Summary :=
  { total := checks.length
    passed := (checks.filter (fun r => r.status == .success)).length
    failed := (checks.filter (fun r => r.status == .error)).length }

/-- hasErrors: some result has status error. -/
def hasErrors (checks : List HealthCheckResult) : Bool :=
  checks.any (fun r => r.status == .error)

/-- A JSON response from either route handler; absent body fields are
none. -/
structure HttpResponse where
  httpStatus : Nat
  status : Option String
  timestamp : Option String
  checks : Option (List HealthCheckResult)
  summary : Option Summary
  message : Option String
  requestedService : Option String
  errorInfo : Option String
deriving DecidableEq

/-- The successful GET response body over a checks list: overall status,
timestamp, checks, and summary, with HTTP 503 when any check failed and
200 otherwise. -/
def mkGetResponse (checks : List HealthCheckResult) (ts : String) : HttpResponse :=
  { httpStatus := if hasErrors checks then 503 else 200
    status := some (if hasErrors checks then "unhealthy" else "healthy")
    timestamp := some ts
    checks := some checks
    summary := some (mkSummary checks)
    message := none
    requestedService := none
    errorInfo := none }

/-- GET /api/health: run the batch and assemble the report. The catch
branch (500) guards a throw of runAllHealthChecks, which the embedded
orchestrator cannot produce, so it is unreachable here. -/
def GETroute (cfg : Config) (w : World) (ts : String) : HttpResponse :=
  mkGetResponse (runAllHealthChecks cfg w) ts

/-- POST /api/health: body is the parse outcome of request.json,
carrying the optional service field. A parse fault gives 400; a truthy
service gives the 501 stub; otherwise the batch runs and the body is
status, timestamp, and checks only (no summary field). -/
def POSTroute (cfg : Config) (w : World) (ts : String)
    (body : Except JsError (Option String)) : HttpResponse :=
  match body with
  | .error e =>
    { httpStatus := 400
      status := some "error"
      timestamp := some ts
      checks := none
      summary := none
      message := some "Invalid request"
      requestedService := none
      errorInfo := some (errMsg e) }
  | .ok svc =>
    if presentS svc then
      { httpStatus := 501
        status := none
        timestamp := none
        checks := none
        summary := none
        message := some "Individual service checks not implemented yet. Use GET /api/health for all checks."
        requestedService := svc
        errorInfo := none }
    else
      let checks := runAllHealthChecks cfg w
      { httpStatus := if hasErrors checks then 503 else 200
        status := some (if hasErrors checks then "unhealthy" else "healthy")
        timestamp := some ts
        checks := some checks
        summary := none
        message := none
        requestedService := none
        errorInfo := none }

/-! ## Concrete inputs used by witnesses and counterexamples -/

/-- A configuration with only the database variables set. -/
def cfgDB : Config :=
  { DB_HOST := some "db.internal"
    DB_NAME := some "app"
    DB_USERNAME := some "svc"
    DB_PASSWORD := some "secret" }

/-- A configuration with only DNS_CHECK_HOST set: a partially-set
reachability configuration (DNS_CHECK_PORT absent). -/
def cfgDnsPartial : Config :=
  { DNS_CHECK_HOST := some "google.com" }

/-- The default world: every dependency interaction succeeds and no
promise rejects. -/
def wOk : World := {}

/-- A world where the database promise rejects with an uncaught Error
carrying the message boom. -/
def wDbFault : World := { dbFault := some (some "boom") }

/-- A world where the database connection opens but the round-trip query
throws. -/
def wQueryFail : World := { dbQuery := .error (some "query exploded") }

/-! ## Helper lemmas -/

/-- The two filters of mkSummary partition the checks list: statuses are
exactly success and error. -/
lemma summary_partition (checks : List HealthCheckResult) :
    (mkSummary checks).passed + (mkSummary checks).failed = (mkSummary checks).total := by
  simp only [mkSummary]
  induction checks with
  | nil => rfl
  | cons hd t ih =>
    cases hs : hd.status <;> simp [List.filter_cons, hs] <;> omega

/-- A list satisfies any p exactly when its p-filter is nonempty. -/
lemma any_iff_filter_pos (p : HealthCheckResult → Bool) (l : List HealthCheckResult) :
    l.any p = true ↔ 0 < (l.filter p).length := by
  induction l with
  | nil => simp
  | cons hd t ih =>
    by_cases hp : p hd = true
    · simp [List.any_cons, hp, List.filter_cons]
    · simp [List.any_cons, hp, List.filter_cons, ih]

/-- hasErrors holds exactly when the failed count is positive. -/
lemma hasErrors_iff (checks : List HealthCheckResult) :
    hasErrors checks = true ↔ 0 < (mkSummary checks).failed :=
  any_iff_filter_pos (fun r => r.status == .error) checks

/-! ## C2 -/

/-- C2: for every checks list handed to the transport boundary, the GET
report has summary.total equal to the length of its checks field,
summary.passed + summary.failed equal to summary.total, and overall
status unhealthy exactly when summary.failed is positive. -/
theorem c2_report_invariants (checks : List HealthCheckResult) (ts : String) :
    (mkGetResponse checks ts).checks = some checks ∧
    (mkGetResponse checks ts).summary = some (mkSummary checks) ∧
    (mkSummary checks).total = checks.length ∧
    (mkSummary checks).passed + (mkSummary checks).failed = (mkSummary checks).total ∧
    ((mkGetResponse checks ts).status = some "unhealthy" ↔ 0 < (mkSummary checks).failed) := by
  refine ⟨rfl, rfl, rfl, summary_partition checks, ?_⟩
  by_cases h : hasErrors checks = true
  · have hp := (hasErrors_iff checks).mp h
    simp [mkGetResponse, h, hp]
  · have hp : ¬ 0 < (mkSummary checks).failed := fun hc => h ((hasErrors_iff checks).mpr hc)
    simp only [mkGetResponse, h, if_false, Bool.false_eq_true]
    simp [hp]

/-! ## C3 -/

/-- A gate of the shape if c then some x else none yields none exactly
when the condition is false. -/
lemma gate_none {α : Type} (c : Bool) (x : α) :
    (if c = true then some x else none) = none ↔ c = false := by
  cases c <;> simp

/-- Counterexample to C3: with DNS_CHECK_HOST set and DNS_CHECK_PORT
absent (a partially-set reachability configuration), the reachability
probe is not skipped: it runs with the default port 80 and contributes
an entry to the checks list. -/
theorem c3_counterexample :
    cfgDnsPartial.DNS_CHECK_PORT = none ∧
    presentS cfgDnsPartial.DNS_CHECK_HOST = true ∧
    checkDNSPort none none cfgDnsPartial wOk =
      some (dnsResultOf "google.com" (some 80) .connectEvt) ∧
    (runAllHealthChecks cfgDnsPartial wOk).map (fun r => r.service) =
      ["Application Port", "DNS/Port Connectivity"] := by
  decide

/-- C3 amended: the all-or-nothing skip rule holds for the database
probe (all four of DB_HOST, DB_NAME, DB_USERNAME, DB_PASSWORD required),
the object-store probe (S3_BUCKET_NAME), and the email probe
(SES_FROM_EMAIL); the reachability probe instead is skipped only when
the call-time hostname and port and both of DNS_CHECK_HOST and
DNS_CHECK_PORT are all absent — any one of them present makes it run. -/
theorem c3_amended_gate_characterization (cfg : Config) (w : World)
    (hostname : Option String) (port : Option Nat) :
    (checkDatabase cfg w = none ↔
      (presentS cfg.DB_HOST = false ∨ presentS cfg.DB_NAME = false ∨
       presentS cfg.DB_USERNAME = false ∨ presentS cfg.DB_PASSWORD = false)) ∧
    (checkS3 cfg w = none ↔ presentS cfg.S3_BUCKET_NAME = false) ∧
    (checkSES cfg w = none ↔ presentS cfg.SES_FROM_EMAIL = false) ∧
    (checkDNSPort hostname port cfg w = none ↔
      (presentS hostname = false ∧ presentN port = false ∧
       presentS cfg.DNS_CHECK_HOST = false ∧ presentS cfg.DNS_CHECK_PORT = false)) := by
  refine ⟨?_, ?_, ?_, ?_⟩
  · rw [checkDatabase, gate_none]
    cases h1 : presentS cfg.DB_HOST <;> cases h2 : presentS cfg.DB_NAME <;>
      cases h3 : presentS cfg.DB_USERNAME <;> cases h4 : presentS cfg.DB_PASSWORD <;>
        simp [dbEligible, h1, h2, h3, h4]
  · rw [checkS3, gate_none]
    cases h1 : presentS cfg.S3_BUCKET_NAME <;> simp [s3Eligible, h1]
  · rw [checkSES, gate_none]
    cases h1 : presentS cfg.SES_FROM_EMAIL <;> simp [sesEligible, h1]
  · rw [checkDNSPort, gate_none]
    cases h1 : presentS hostname <;> cases h2 : presentN port <;>
      cases h3 : presentS cfg.DNS_CHECK_HOST <;> cases h4 : presentS cfg.DNS_CHECK_PORT <;>
        simp [dnsEligible, h1, h2, h3, h4]

/-! ## C9 -/

/-- C9: DB_PORT is not part of the database precondition gate: with the
four required variables present and DB_PORT absent, the probe runs and
the client is constructed with the default port 5432. -/
theorem c9_db_port_defaulted (cfg : Config) (w : World)
    (h1 : presentS cfg.DB_HOST = true) (h2 : presentS cfg.DB_NAME = true)
    (h3 : presentS cfg.DB_USERNAME = true) (h4 : presentS cfg.DB_PASSWORD = true)
    (h5 : cfg.DB_PORT = none) :
    checkDatabase cfg w = some (dbRunTrace cfg w).1 ∧
    (dbRunTrace cfg w).2.port = some 5432 := by
  have he : dbEligible cfg = true := by simp [dbEligible, h1, h2, h3, h4]
  have hport : dbPortUsed cfg = some 5432 := by
    rw [dbPortUsed, h5]; decide
  refine ⟨by simp [checkDatabase, he], ?_⟩
  cases hc : w.dbConnect with
  | error e => simp [dbRunTrace, hc, hport]
  | ok u =>
    cases hq : w.dbQuery with
    | error e => simp [dbRunTrace, hc, hq, hport]
    | ok t => simp [dbRunTrace, hc, hq, hport]

/-- Witness for C9 at a concrete configuration. -/
theorem c9_db_port_defaulted_witness :
    checkDatabase cfgDB wOk = some (dbRunTrace cfgDB wOk).1 ∧
    (dbRunTrace cfgDB wOk).2.port = some 5432 :=
  c9_db_port_defaulted cfgDB wOk (by decide) (by decide) (by decide) (by decide) rfl

/-! ## C6 -/

/-- Counterexample to C6: with the database variables set, a world where
the connection opens and the round-trip query then throws makes the
probe return with the connection still open — client.end is never
reached on the failure path. -/
theorem c6_counterexample :
    checkDatabase cfgDB wQueryFail = some (dbRunTrace cfgDB wQueryFail).1 ∧
    (dbRunTrace cfgDB wQueryFail).1.status = .error ∧
    (dbRunTrace cfgDB wQueryFail).2.connected = true ∧
    (dbRunTrace cfgDB wQueryFail).2.ended = false := by
  decide

/-- C6 amended: for every non-skipped database probe execution, the
connection is closed before the probe returns exactly when the probe
succeeds; on every failure path the catch block returns without calling
client.end, and a close only ever happens after a successful open. -/
theorem c6_amended_close_iff_success (cfg : Config) (w : World) (res : HealthCheckResult)
    (h : checkDatabase cfg w = some res) :
    res = (dbRunTrace cfg w).1 ∧
    ((dbRunTrace cfg w).2.ended = true ↔ res.status = .success) ∧
    ((dbRunTrace cfg w).2.ended = true → (dbRunTrace cfg w).2.connected = true) := by
  have hres : res = (dbRunTrace cfg w).1 := by
    by_cases he : dbEligible cfg = true
    · rw [checkDatabase, if_pos he] at h
      exact (Option.some_inj.mp h).symm
    · rw [checkDatabase, if_neg he] at h
      exact absurd h (by simp)
  subst hres
  refine ⟨rfl, ?_, ?_⟩ <;>
    cases hc : w.dbConnect with
    | error e => simp [dbRunTrace, hc, dbErrorResult]
    | ok u =>
      cases hq : w.dbQuery with
      | error e => simp [dbRunTrace, hc, hq, dbErrorResult]
      | ok t => simp [dbRunTrace, hc, hq, dbSuccessResult]

/-- Witness for the amended C6 on the success path. -/
theorem c6_amended_close_iff_success_witness :
    dbSuccessResult "2024-01-01T00:00:00Z" = (dbRunTrace cfgDB wOk).1 ∧
    ((dbRunTrace cfgDB wOk).2.ended = true ↔
      (dbSuccessResult "2024-01-01T00:00:00Z").status = .success) ∧
    ((dbRunTrace cfgDB wOk).2.ended = true → (dbRunTrace cfgDB wOk).2.connected = true) :=
  c6_amended_close_iff_success cfgDB wOk (dbSuccessResult "2024-01-01T00:00:00Z") (by decide)

/-! ## C7 -/

/-- Counterexample to C7: the all-checks POST response does not have the
same report shape as GET — its body carries no summary field, while the
GET body does. -/
theorem c7_counterexample :
    (POSTroute cfgDB wOk "t0" (.ok none)).summary = none ∧
    (GETroute cfgDB wOk "t0").summary =
      some (mkSummary (runAllHealthChecks cfgDB wOk)) ∧
    (GETroute cfgDB wOk "t0").summary ≠ (POSTroute cfgDB wOk "t0" (.ok none)).summary := by
  decide

/-- C7 amended: a POST naming a truthy service returns 501; a POST
naming no service runs the batch and agrees with GET on overall status,
checks, HTTP status, and timestamp, but its body carries no summary
field. -/
theorem c7_amended_post_behavior (cfg : Config) (w : World) (ts : String)
    (svc : Option String) (h : presentS svc = true) :
    (POSTroute cfg w ts (.ok svc)).httpStatus = 501 ∧
    (POSTroute cfg w ts (.ok none)).status = (GETroute cfg w ts).status ∧
    (POSTroute cfg w ts (.ok none)).checks = (GETroute cfg w ts).checks ∧
    (POSTroute cfg w ts (.ok none)).httpStatus = (GETroute cfg w ts).httpStatus ∧
    (POSTroute cfg w ts (.ok none)).timestamp = (GETroute cfg w ts).timestamp ∧
    (POSTroute cfg w ts (.ok none)).summary = none := by
  refine ⟨by simp [POSTroute, h], ?_, ?_, ?_, ?_, ?_⟩ <;>
    simp [POSTroute, GETroute, mkGetResponse, presentS]

/-- Witness for the amended C7 at a concrete input. -/
theorem c7_amended_post_behavior_witness :
    (POSTroute cfgDB wOk "t1" (.ok (some "database"))).httpStatus = 501 ∧
    (POSTroute cfgDB wOk "t1" (.ok none)).status = (GETroute cfgDB wOk "t1").status ∧
    (POSTroute cfgDB wOk "t1" (.ok none)).checks = (GETroute cfgDB wOk "t1").checks ∧
    (POSTroute cfgDB wOk "t1" (.ok none)).httpStatus = (GETroute cfgDB wOk "t1").httpStatus ∧
    (POSTroute cfgDB wOk "t1" (.ok none)).timestamp = (GETroute cfgDB wOk "t1").timestamp ∧
    (POSTroute cfgDB wOk "t1" (.ok none)).summary = none :=
  c7_amended_post_behavior cfgDB wOk "t1" (some "database") (by decide)

/-! ## C5 -/

/-- Once the timer is cleared or consumed and the socket destroyed, every
handler is a no-op. -/
lemma dnsStep_stuck (host : String) (p : Option Nat) (e : DNSEvent) (s : DNSState)
    (h1 : s.timerActive = false) (h2 : s.socketAlive = false) :
    dnsStep host p s e = s := by
  cases e <;> simp [dnsStep, h1, h2]

/-- A fully suppressed state absorbs every remaining event. -/
lemma dnsRun_stuck (host : String) (p : Option Nat) (events : List DNSEvent) (s : DNSState)
    (h1 : s.timerActive = false) (h2 : s.socketAlive = false) :
    events.foldl (dnsStep host p) s = s := by
  induction events with
  | nil => rfl
  | cons e rest ih => rw [List.foldl_cons, dnsStep_stuck host p e s h1 h2]; exact ih

/-- C5: for a non-skipped reachability probe, whichever of the three
events (timeout firing, connect, socket error) happens first produces
the single resolution; the losing paths are suppressed (timer cleared,
socket destroyed), so any sequence of later events changes nothing, and
the probe result is exactly the first event's result. -/
theorem c5_single_resolution (cfg : Config) (w : World) (hostname : Option String)
    (port : Option Nat) (e : DNSEvent) (rest : List DNSEvent)
    (h : dnsEligible hostname port cfg = true) :
    (dnsRun (dnsHostUsed hostname cfg) (dnsPortUsed port cfg) (e :: rest)).resolved =
      [dnsResultOf (dnsHostUsed hostname cfg) (dnsPortUsed port cfg) e] ∧
    checkDNSPort hostname port cfg w =
      some (dnsResultOf (dnsHostUsed hostname cfg) (dnsPortUsed port cfg) w.dnsEvent) := by
  constructor
  · unfold dnsRun
    rw [List.foldl_cons]
    have hstep : dnsStep (dnsHostUsed hostname cfg) (dnsPortUsed port cfg) dnsInit e =
        ⟨[dnsResultOf (dnsHostUsed hostname cfg) (dnsPortUsed port cfg) e], false, false⟩ := by
      cases e <;> simp [dnsStep, dnsInit]
    rw [hstep, dnsRun_stuck _ _ rest _ rfl rfl]
  · simp [checkDNSPort, h]

/-- Witness for C5: the timeout fires first; a late connect and a late
socket error are both suppressed. -/
theorem c5_single_resolution_witness :
    (dnsRun (dnsHostUsed none cfgDnsPartial) (dnsPortUsed none cfgDnsPartial)
        (.timeoutFire :: [.connectEvt, .errorEvt (some "ECONNREFUSED") "refused"])).resolved =
      [dnsResultOf (dnsHostUsed none cfgDnsPartial) (dnsPortUsed none cfgDnsPartial)
        .timeoutFire] ∧
    checkDNSPort none none cfgDnsPartial wOk =
      some (dnsResultOf (dnsHostUsed none cfgDnsPartial) (dnsPortUsed none cfgDnsPartial)
        wOk.dnsEvent) :=
  c5_single_resolution cfgDnsPartial wOk none none .timeoutFire
    [.connectEvt, .errorEvt (some "ECONNREFUSED") "refused"] (by decide)

/-! ## Machinery for C4, C8, C10: the settled array and completion
orders -/

/-- What the forEach body contributes for one settled entry at index i:
nothing for a skipped probe, the value for a fulfilled probe, orchError
for a rejection. -/
def taskOut : SettledResult → Nat → Option HealthCheckResult
  | .fulfilled v, _ => v
  | .rejected r, i => some (orchError i r)

/-- Unfolding of the forEach loop one entry at a time. -/
lemma processSettled_cons (t : SettledResult) (rest : List SettledResult) (i : Nat) :
    processSettled (t :: rest) i = (taskOut t i).toList ++ processSettled rest (i + 1) := by
  cases t with
  | fulfilled v => cases v <;> simp [processSettled, taskOut]
  | rejected r => simp [processSettled, taskOut]

/-- gather preserves the length of the results array. -/
lemma gather_length (tasks : List SettledResult) :
    ∀ (order : List Nat) (acc : List (Option SettledResult)),
      (gather tasks order acc).length = acc.length := by
  intro order
  induction order with
  | nil => intro acc; rfl
  | cons i rest ih => intro acc; rw [gather, ih]; exact List.length_set acc i _

/-- After gathering, a slot inside the array holds the settled outcome of
its own index whenever that index occurs in the completion order, and is
untouched otherwise: completion order only decides write order, never
placement. -/
lemma gather_getElem? (tasks : List SettledResult) :
    ∀ (order : List Nat) (acc : List (Option SettledResult)) (j : Nat), j < acc.length →
      (gather tasks order acc)[j]? =
        if j ∈ order then some (some (tasks.getD j (.fulfilled none))) else acc[j]? := by
  intro order
  induction order with
  | nil => intro acc j _; simp [gather]
  | cons i rest ih =>
    intro acc j hj
    rw [gather, ih _ j (by simpa using hj)]
    by_cases hjr : j ∈ rest
    · simp [hjr, List.mem_cons]
    · by_cases hij : j = i
      · subst hij
        simp [hjr, List.mem_cons, List.getElem?_set_self hj]
      · simp [hjr, List.mem_cons, hij, List.getElem?_set_ne (fun he => hij he.symm)]

/-- When every index settles, the gathered array is exactly the settled
outcomes in declaration order, whatever the completion order was. -/
lemma gather_complete (tasks : List SettledResult) (order : List Nat)
    (h : ∀ i, i < tasks.length → i ∈ order) :
    gather tasks order (List.replicate tasks.length none) = tasks.map some := by
  apply List.ext_getElem?
  intro j
  by_cases hj : j < tasks.length
  · rw [gather_getElem? tasks order _ j (by simpa using hj), if_pos (h j hj),
      List.getElem?_map, List.getElem?_eq_getElem hj,
      List.getD_eq_getElem?_getD, List.getElem?_eq_getElem hj]
    rfl
  · have h1 : (gather tasks order (List.replicate tasks.length none)).length ≤ j := by
      rw [gather_length]; simpa using Nat.le_of_not_lt hj
    rw [List.getElem?_eq_none h1,
      List.getElem?_eq_none (by simpa using Nat.le_of_not_lt hj)]

/-- Under any complete completion order, the scheduled batch equals the
declaration-order batch. -/
lemma runAllSched_eq (cfg : Config) (w : World) (order : List Nat)
    (h : ∀ i, i < (tasksOf cfg w).length → i ∈ order) :
    runAllSched cfg w order = runAllHealthChecks cfg w := by
  rw [runAllSched, gather_complete _ _ h, List.map_map]
  have hc : ((fun o => Option.getD o (.fulfilled none)) ∘ some) =
      (id : SettledResult → SettledResult) := rfl
  rw [hc, List.map_id]
  rfl

/-- Every result of the self-report probe carries its declared service
name and a details mapping. -/
lemma checkPort_shape (cfg : Config) :
    (checkPort cfg).service = "Application Port" ∧ (checkPort cfg).details ≠ none :=
  ⟨rfl, by simp [checkPort]⟩

/-- Every result the database probe itself produces carries its declared
service name and a details mapping. -/
lemma checkDatabase_shape (cfg : Config) (w : World) (res : HealthCheckResult)
    (h : checkDatabase cfg w = some res) :
    res.service = "PostgreSQL Database" ∧ res.details ≠ none := by
  by_cases he : dbEligible cfg = true
  · rw [checkDatabase, if_pos he] at h
    obtain rfl : (dbRunTrace cfg w).1 = res := Option.some_inj.mp h
    cases hc : w.dbConnect with
    | error e => simp [dbRunTrace, hc, dbErrorResult]
    | ok u =>
      cases hq : w.dbQuery with
      | error e => simp [dbRunTrace, hc, hq, dbErrorResult]
      | ok t => simp [dbRunTrace, hc, hq, dbSuccessResult]
  · rw [checkDatabase, if_neg he] at h
    exact absurd h (by simp)

/-- Every result the object-store probe itself produces carries its
declared service name and a details mapping. -/
lemma checkS3_shape (cfg : Config) (w : World) (res : HealthCheckResult)
    (h : checkS3 cfg w = some res) :
    res.service = "AWS S3" ∧ res.details ≠ none := by
  by_cases he : s3Eligible cfg = true
  · rw [checkS3, if_pos he] at h
    obtain rfl : s3Run w = res := Option.some_inj.mp h
    cases hc : w.s3Head with
    | error e => simp [s3Run, hc]
    | ok u => simp [s3Run, hc]
  · rw [checkS3, if_neg he] at h
    exact absurd h (by simp)

/-- Every result the email probe itself produces carries its declared
service name and a details mapping. -/
lemma checkSES_shape (cfg : Config) (w : World) (res : HealthCheckResult)
    (h : checkSES cfg w = some res) :
    res.service = "AWS SES" ∧ res.details ≠ none := by
  by_cases he : sesEligible cfg = true
  · rw [checkSES, if_pos he] at h
    obtain rfl : sesRun w = res := Option.some_inj.mp h
    cases hc : w.sesVerify with
    | error e => simp [sesRun, hc]
    | ok u => simp [sesRun, hc]
  · rw [checkSES, if_neg he] at h
    exact absurd h (by simp)

/-- Every result the reachability probe itself produces carries its
declared service name and a details mapping. -/
lemma checkDNSPort_shape (hostname : Option String) (port : Option Nat)
    (cfg : Config) (w : World) (res : HealthCheckResult)
    (h : checkDNSPort hostname port cfg w = some res) :
    res.service = "DNS/Port Connectivity" ∧ res.details ≠ none := by
  by_cases he : dnsEligible hostname port cfg = true
  · rw [checkDNSPort, if_pos he] at h
    obtain rfl : dnsResultOf (dnsHostUsed hostname cfg) (dnsPortUsed port cfg) w.dnsEvent = res :=
      Option.some_inj.mp h
    cases w.dnsEvent <;> simp [dnsResultOf]
  · rw [checkDNSPort, if_neg he] at h
    exact absurd h (by simp)

/-- If a settled probe entry contributes a result, the result is either
the probe value of a fulfilled promise, or the orchestrator error of a
rejected one. -/
lemma taskOut_settleProbe (o : Option HealthCheckResult) (f : Option JsError) (i : Nat)
    (res : HealthCheckResult) (h : taskOut (settleProbe o f) i = some res) :
    o = some res ∨ ∃ e, f = some e ∧ settleProbe o f = .rejected e ∧ res = orchError i e := by
  match o, f with
  | none, f => simp [settleProbe, taskOut] at h
  | some v, none =>
    simp only [settleProbe, taskOut, Option.some_inj] at h
    exact Or.inl (by rw [h])
  | some v, some e =>
    simp only [settleProbe, taskOut, Option.some_inj] at h
    exact Or.inr ⟨e, rfl, rfl, h.symm⟩

/-- Any result contributed by the task at a position of the settled
array carries the service name declared for that position. -/
lemma tasksOf_service (cfg : Config) (w : World) (j : Nat) (res : HealthCheckResult)
    (hj : j < (tasksOf cfg w).length)
    (h : taskOut ((tasksOf cfg w).getD j (.fulfilled none)) (0 + j) = some res) :
    res.service = services.getD (0 + j) "" := by
  simp only [Nat.zero_add] at h ⊢
  have hlen : (tasksOf cfg w).length = 5 := rfl
  rw [hlen] at hj
  interval_cases j
  · have : (tasksOf cfg w).getD 0 (.fulfilled none) = .fulfilled (some (checkPort cfg)) := rfl
    rw [this] at h
    obtain rfl : checkPort cfg = res := by simpa [taskOut] using h
    exact (checkPort_shape cfg).1
  · have : (tasksOf cfg w).getD 1 (.fulfilled none) =
      settleProbe (checkDatabase cfg w) w.dbFault := rfl
    rw [this] at h
    rcases taskOut_settleProbe _ _ _ _ h with hv | ⟨e, _, _, rfl⟩
    · exact (checkDatabase_shape cfg w res hv).1
    · rfl
  · have : (tasksOf cfg w).getD 2 (.fulfilled none) =
      settleProbe (checkS3 cfg w) w.s3Fault := rfl
    rw [this] at h
    rcases taskOut_settleProbe _ _ _ _ h with hv | ⟨e, _, _, rfl⟩
    · exact (checkS3_shape cfg w res hv).1
    · rfl
  · have : (tasksOf cfg w).getD 3 (.fulfilled none) =
      settleProbe (checkSES cfg w) w.sesFault := rfl
    rw [this] at h
    rcases taskOut_settleProbe _ _ _ _ h with hv | ⟨e, _, _, rfl⟩
    · exact (checkSES_shape cfg w res hv).1
    · rfl
  · have : (tasksOf cfg w).getD 4 (.fulfilled none) =
      settleProbe (checkDNSPort none none cfg w) w.dnsFault := rfl
    rw [this] at h
    rcases taskOut_settleProbe _ _ _ _ h with hv | ⟨e, _, _, rfl⟩
    · exact (checkDNSPort_shape none none cfg w res hv).1
    · rfl

/-- The forEach output, read through the service field, is a sublist of
the services array from the starting index on, provided every
contribution carries the service declared for its position. -/
lemma processSettled_sublist :
    ∀ (tasks : List SettledResult) (i0 : Nat),
      i0 + tasks.length ≤ services.length →
      (∀ j res, j < tasks.length →
        taskOut (tasks.getD j (.fulfilled none)) (i0 + j) = some res →
        res.service = services.getD (i0 + j) "") →
      List.Sublist ((processSettled tasks i0).map (fun r => r.service)) (services.drop i0) := by
  intro tasks
  induction tasks with
  | nil => intro i0 _ _; simp [processSettled]
  | cons t rest ih =>
    intro i0 hlen h
    rw [processSettled_cons, List.map_append]
    have hi0 : i0 < services.length := by
      simp only [List.length_cons] at hlen; omega
    have hdrop : services.drop i0 = services.getD i0 "" :: services.drop (i0 + 1) := by
      rw [List.drop_eq_getElem_cons hi0]
      congr 1
      rw [List.getD_eq_getElem?_getD, List.getElem?_eq_getElem hi0]
      rfl
    have hrest : List.Sublist ((processSettled rest (i0 + 1)).map (fun r => r.service))
        (services.drop (i0 + 1)) := by
      apply ih (i0 + 1)
      · simp only [List.length_cons] at hlen; omega
      · intro j res hj hres
        have hres' : taskOut ((t :: rest).getD (j + 1) (.fulfilled none)) (i0 + (j + 1)) =
            some res := by
          rw [List.getD_cons_succ, show i0 + (j + 1) = i0 + 1 + j from by omega]
          exact hres
        have hsvc := h (j + 1) res (by simp only [List.length_cons]; omega) hres'
        rw [show i0 + (j + 1) = i0 + 1 + j from by omega] at hsvc
        exact hsvc
    rcases htask : taskOut t i0 with _ | res
    · simp only [Option.toList_none, List.map_nil, List.nil_append]
      rw [hdrop]
      exact List.Sublist.cons _ hrest
    · simp only [Option.toList_some, List.map_cons, List.map_nil, List.cons_append,
        List.nil_append]
      rw [hdrop]
      have hsvc : res.service = services.getD i0 "" := by
        have h0 := h 0 res (by simp) (by simpa [List.getD_cons_zero] using htask)
        simpa using h0
      rw [hsvc]
      exact List.Sublist.cons₂ _ hrest

/-! ## C4 -/

/-- C4: for any complete completion order of the five probe promises,
the batch output equals the declaration-order output, and the services
appearing in the output are, in order, a sublist of the fixed
declaration order Application Port, PostgreSQL Database, AWS S3,
AWS SES, DNS/Port Connectivity (skipped probes omitted). -/
theorem c4_declaration_order (cfg : Config) (w : World) (order : List Nat)
    (h : ∀ i, i < (tasksOf cfg w).length → i ∈ order) :
    runAllSched cfg w order = runAllHealthChecks cfg w ∧
    List.Sublist ((runAllHealthChecks cfg w).map (fun r => r.service)) services := by
  refine ⟨runAllSched_eq cfg w order h, ?_⟩
  have hs := processSettled_sublist (tasksOf cfg w) 0 (by simp [tasksOf, services])
    (fun j res hj hres => tasksOf_service cfg w j res hj hres)
  simpa [runAllHealthChecks] using hs

/-- Witness for C4 under a scrambled completion order. -/
theorem c4_declaration_order_witness :
    runAllSched cfgDB wDbFault [4, 2, 0, 3, 1] = runAllHealthChecks cfgDB wDbFault ∧
    List.Sublist ((runAllHealthChecks cfgDB wDbFault).map (fun r => r.service)) services :=
  c4_declaration_order cfgDB wDbFault [4, 2, 0, 3, 1] (by decide)

/-! ## C8 -/

/-- C8: two runs of the batch under identical configuration and
identical dependency outcomes, with arbitrary (complete) completion
orders and different timestamps, produce reports with identical overall
status and identical summary. -/
theorem c8_batch_determinism (cfg : Config) (w : World) (o1 o2 : List Nat) (ts1 ts2 : String)
    (h1 : ∀ i, i < (tasksOf cfg w).length → i ∈ o1)
    (h2 : ∀ i, i < (tasksOf cfg w).length → i ∈ o2) :
    (mkGetResponse (runAllSched cfg w o1) ts1).status =
      (mkGetResponse (runAllSched cfg w o2) ts2).status ∧
    (mkGetResponse (runAllSched cfg w o1) ts1).summary =
      (mkGetResponse (runAllSched cfg w o2) ts2).summary := by
  rw [runAllSched_eq cfg w o1 h1, runAllSched_eq cfg w o2 h2]
  exact ⟨rfl, rfl⟩

/-- Witness for C8 with two different completion orders and
timestamps. -/
theorem c8_batch_determinism_witness :
    (mkGetResponse (runAllSched cfgDB wOk [0, 1, 2, 3, 4]) "ts-a").status =
      (mkGetResponse (runAllSched cfgDB wOk [3, 4, 2, 1, 0]) "ts-b").status ∧
    (mkGetResponse (runAllSched cfgDB wOk [0, 1, 2, 3, 4]) "ts-a").summary =
      (mkGetResponse (runAllSched cfgDB wOk [3, 4, 2, 1, 0]) "ts-b").summary :=
  c8_batch_determinism cfgDB wOk [0, 1, 2, 3, 4] [3, 4, 2, 1, 0] "ts-a" "ts-b"
    (by decide) (by decide)

/-! ## C10 -/

/-- Every member of the forEach output comes from the task at some
position of the settled array. -/
lemma mem_processSettled (res : HealthCheckResult) :
    ∀ (tasks : List SettledResult) (i : Nat), res ∈ processSettled tasks i →
      ∃ j, j < tasks.length ∧ taskOut (tasks.getD j (.fulfilled none)) (i + j) = some res := by
  intro tasks
  induction tasks with
  | nil => intro i h; simp [processSettled] at h
  | cons t rest ih =>
    intro i h
    rw [processSettled_cons] at h
    rcases List.mem_append.mp h with h1 | h2
    · refine ⟨0, by simp, ?_⟩
      rcases ht : taskOut t i with _ | v
      · rw [ht] at h1; simp at h1
      · rw [ht] at h1
        simp only [Option.toList_some, List.mem_singleton] at h1
        subst h1
        simpa [List.getD_cons_zero] using ht
    · obtain ⟨j, hj, hres⟩ := ih (i + 1) h2
      refine ⟨j + 1, by simp only [List.length_cons]; omega, ?_⟩
      rw [List.getD_cons_succ, show i + (j + 1) = i + 1 + j from by omega]
      exact hres

/-- C10: a member of the batch output has no details field exactly when
it is the orchestrator-synthesized error for a rejected probe promise;
every result produced by a probe on its own success or caught-failure
path carries a details mapping. -/
theorem c10_details_iff_orchestrator (cfg : Config) (w : World) (res : HealthCheckResult)
    (hmem : res ∈ runAllHealthChecks cfg w) :
    res.details = none ↔
      ∃ j r, (tasksOf cfg w)[j]? = some (.rejected r) ∧ res = orchError j r := by
  constructor
  · intro hd
    obtain ⟨j, hj, hres⟩ := mem_processSettled res (tasksOf cfg w) 0 hmem
    simp only [Nat.zero_add] at hres
    have hlen : (tasksOf cfg w).length = 5 := rfl
    rw [hlen] at hj
    interval_cases j
    · have ht : (tasksOf cfg w).getD 0 (.fulfilled none) =
        .fulfilled (some (checkPort cfg)) := rfl
      rw [ht] at hres
      obtain rfl : checkPort cfg = res := by simpa [taskOut] using hres
      exact absurd hd (checkPort_shape cfg).2
    · have ht : (tasksOf cfg w).getD 1 (.fulfilled none) =
        settleProbe (checkDatabase cfg w) w.dbFault := rfl
      rw [ht] at hres
      rcases taskOut_settleProbe _ _ _ _ hres with hv | ⟨e, _, hsp, rfl⟩
      · exact absurd hd (checkDatabase_shape cfg w res hv).2
      · exact ⟨1, e, by rw [show (tasksOf cfg w)[1]? =
          some (settleProbe (checkDatabase cfg w) w.dbFault) from rfl, hsp], rfl⟩
    · have ht : (tasksOf cfg w).getD 2 (.fulfilled none) =
        settleProbe (checkS3 cfg w) w.s3Fault := rfl
      rw [ht] at hres
      rcases taskOut_settleProbe _ _ _ _ hres with hv | ⟨e, _, hsp, rfl⟩
      · exact absurd hd (checkS3_shape cfg w res hv).2
      · exact ⟨2, e, by rw [show (tasksOf cfg w)[2]? =
          some (settleProbe (checkS3 cfg w) w.s3Fault) from rfl, hsp], rfl⟩
    · have ht : (tasksOf cfg w).getD 3 (.fulfilled none) =
        settleProbe (checkSES cfg w) w.sesFault := rfl
      rw [ht] at hres
      rcases taskOut_settleProbe _ _ _ _ hres with hv | ⟨e, _, hsp, rfl⟩
      · exact absurd hd (checkSES_shape cfg w res hv).2
      · exact ⟨3, e, by rw [show (tasksOf cfg w)[3]? =
          some (settleProbe (checkSES cfg w) w.sesFault) from rfl, hsp], rfl⟩
    · have ht : (tasksOf cfg w).getD 4 (.fulfilled none) =
        settleProbe (checkDNSPort none none cfg w) w.dnsFault := rfl
      rw [ht] at hres
      rcases taskOut_settleProbe _ _ _ _ hres with hv | ⟨e, _, hsp, rfl⟩
      · exact absurd hd (checkDNSPort_shape none none cfg w res hv).2
      · exact ⟨4, e, by rw [show (tasksOf cfg w)[4]? =
          some (settleProbe (checkDNSPort none none cfg w) w.dnsFault) from rfl, hsp], rfl⟩
  · rintro ⟨j, r, _, rfl⟩
    rfl

/-- Witness for C10 at a concrete rejected database promise. -/
theorem c10_details_iff_orchestrator_witness :
    (orchError 1 (some "boom")).details = none ↔
      ∃ j r, (tasksOf cfgDB wDbFault)[j]? = some (.rejected r) ∧
        orchError 1 (some "boom") = orchError j r :=
  c10_details_iff_orchestrator cfgDB wDbFault (orchError 1 (some "boom")) (by decide)

/-! ## C1 -/

/-- Whatever the task at a position of the settled array contributes is a
member of the forEach output. -/
lemma mem_of_taskOut :
    ∀ (tasks : List SettledResult) (i j : Nat) (t : SettledResult) (res : HealthCheckResult),
      tasks[j]? = some t → taskOut t (i + j) = some res → res ∈ processSettled tasks i := by
  intro tasks
  induction tasks with
  | nil => intro i j t res hjt _; simp at hjt
  | cons hd rest ih =>
    intro i j t res hjt hout
    cases j with
    | zero =>
      obtain rfl : hd = t := by simpa using hjt
      rw [Nat.add_zero] at hout
      rw [processSettled_cons]
      exact List.mem_append_left _ (by simp [hout])
    | succ j2 =>
      rw [processSettled_cons]
      refine List.mem_append_right _ (ih (i + 1) j2 t res (by simpa using hjt) ?_)
      rw [show i + 1 + j2 = i + (j2 + 1) from by omega]
      exact hout

/-- C1: if the probe promise at any position of the batch rejects with an
uncaught fault, the orchestrator intercepts it at the per-probe boundary:
the returned list contains an Error result carrying that position's
declared service name and the generic Health check failed message, and
the result of every probe promise that fulfilled with a value still
appears in the returned list. -/
theorem c1_orchestrator_fault_interception (cfg : Config) (w : World) (j : Nat) (r : JsError)
    (hrej : (tasksOf cfg w)[j]? = some (.rejected r)) :
    orchError j r ∈ runAllHealthChecks cfg w ∧
    (orchError j r).service = services.getD j "" ∧
    (orchError j r).status = .error ∧
    (orchError j r).message = "Health check failed: " ++ errMsg r ∧
    (∀ (j2 : Nat) (res : HealthCheckResult),
      (tasksOf cfg w)[j2]? = some (SettledResult.fulfilled (some res)) →
      res ∈ runAllHealthChecks cfg w) := by
  refine ⟨?_, rfl, rfl, rfl, ?_⟩
  · exact mem_of_taskOut (tasksOf cfg w) 0 j _ _ hrej (by simp [taskOut])
  · intro j2 res h2
    exact mem_of_taskOut (tasksOf cfg w) 0 j2 _ _ h2 (by simp [taskOut])

/-- Witness for C1: the database promise rejects at index 1 of the
batch; the witness instantiates every hypothesis at that concrete
input. -/
theorem c1_orchestrator_fault_interception_witness :
    orchError 1 (some "boom") ∈ runAllHealthChecks cfgDB wDbFault ∧
    (orchError 1 (some "boom")).service = services.getD 1 "" ∧
    (orchError 1 (some "boom")).status = .error ∧
    (orchError 1 (some "boom")).message = "Health check failed: " ++ errMsg (some "boom") ∧
    (∀ (j2 : Nat) (res : HealthCheckResult),
      (tasksOf cfgDB wDbFault)[j2]? = some (SettledResult.fulfilled (some res)) →
      res ∈ runAllHealthChecks cfgDB wDbFault) :=
  c1_orchestrator_fault_interception cfgDB wDbFault 1 (some "boom") (by decide)

end HealthChecker
